import Mathlib

/-!
Verification development for the outbound webhook notification engine of the
hawkeye repository.  The definitions below are shallow embeddings of
`app/integrations/webhook_manager.py` and of the relevant columns of
`app/db/models/webhook.py`; theorems settle the frozen behavioural claims
about filter matching, payload building and signing, delivery retries and
the delivery state machine.
-/

set_option maxRecDepth 8000

namespace CHawk

/-! ## A small JSON value model

Models the Python dictionaries handed to the webhook manager as
`event_data`, and the payload envelope built by `_build_payload`.  Object
fields keep insertion order, as Python dicts do.  Keys are assumed unique
(Python dicts cannot hold duplicate keys) and string data is assumed to be
ASCII so that UTF-8 encoding is the identity on code points. -/

inductive Json where
  | null : Json
  | bool (b : Bool) : Json
  | num (n : Int) : Json
  | str (s : String) : Json
  | arr (elems : List Json) : Json
  | obj (fields : List (String × Json)) : Json

/-- Field lookup on an object via `j.get k`, `none` otherwise
(models Python `d.get(k)` / `d[k]` on the dicts we care about). -/
def Json.get (j : Json) (k : String) : Option Json :=
  match j with
  | Json.obj fields => (fields.find? (fun p => p.1 = k)).map (fun p => p.2)
  | _ => none

/-- String-valued field lookup: `some s` when the field is present and is a
string (the embedding restricts attention to string-valued fields here). -/
def Json.getStr (j : Json) (k : String) : Option String :=
  match j.get k with
  | some (Json.str s) => some s
  | _ => none

/-- Integer-valued field lookup. -/
def Json.getInt (j : Json) (k : String) : Option Int :=
  match j.get k with
  | some (Json.num n) => some n
  | _ => none

/-- Remove a top-level object field (used to compare two payload envelopes
up to their `timestamp` field). -/
def Json.stripKey (j : Json) (k : String) : Json :=
  match j with
  | Json.obj fields => Json.obj (fields.filter (fun p => p.1 != k))
  | other => other

/-! ## Python `json.dumps` (the fragments the webhook manager uses)

`_build_headers` serializes `event_data` with `json.dumps(..., sort_keys=True)`
(default separators), while `_build_payload` serializes the envelope with
`json.dumps(..., indent=2)`.  Both are reproduced below.  Serialization is
written with an explicit recursion-depth fuel so that every definition is
structurally recursive and kernel-reducible; the fuel is ample for every
value appearing in this development. -/

/-- One hex digit, lowercase, as Python emits in `\uXXXX` escapes. -/
def hexDigit (n : Nat) : Char :=
  if n < 10 then Char.ofNat (48 + n) else Char.ofNat (87 + n)

/-- Four-digit lowercase hex, used by Python for non-printable escapes. -/
def uHex4 (n : Nat) : String :=
  String.mk [hexDigit (n / 4096 % 16), hexDigit (n / 256 % 16),
             hexDigit (n / 16 % 16), hexDigit (n % 16)]

/-- Escape one character the way Python's `json.dumps` does
(`ensure_ascii` default; backslash, quote, the named control escapes, and
`\uXXXX` for remaining controls and non-ASCII code points). -/
def escapeChar (c : Char) : String :=
  let n := c.toNat
  if n = 34 then String.mk [Char.ofNat 92, Char.ofNat 34]
  else if n = 92 then String.mk [Char.ofNat 92, Char.ofNat 92]
  else if n = 8 then String.mk [Char.ofNat 92, Char.ofNat 98]
  else if n = 9 then String.mk [Char.ofNat 92, Char.ofNat 116]
  else if n = 10 then String.mk [Char.ofNat 92, Char.ofNat 110]
  else if n = 12 then String.mk [Char.ofNat 92, Char.ofNat 102]
  else if n = 13 then String.mk [Char.ofNat 92, Char.ofNat 114]
  else if n < 32 || n > 126 then String.mk [Char.ofNat 92, Char.ofNat 117] ++ uHex4 n
  else String.mk [c]

/-- Escape a whole string for JSON output. -/
def escapeString (s : String) : String :=
  String.join (s.data.map escapeChar)

/-- A JSON string literal: quote, escaped content, quote. -/
def jsonQuote (s : String) : String :=
  String.mk [Char.ofNat 34] ++ escapeString s ++ String.mk [Char.ofNat 34]

/-- Join a list of strings with a separator. -/
def joinSep (sep : String) : List String → String
  | [] => ""
  | [x] => x
  | x :: rest => x ++ sep ++ joinSep sep rest

/-- Python `json.dumps` without `indent` (item separator `", "`, key
separator `": "`), fuel-indexed. -/
def dumpsCompact : Nat → Json → String
  | 0, _ => ""
  | _ + 1, Json.null => "null"
  | _ + 1, Json.bool true => "true"
  | _ + 1, Json.bool false => "false"
  | _ + 1, Json.num n => toString n
  | _ + 1, Json.str s => jsonQuote s
  | fuel + 1, Json.arr xs =>
      "[" ++ joinSep ", " (xs.map (dumpsCompact fuel)) ++ "]"
  | fuel + 1, Json.obj fields =>
      "\x7b" ++
        joinSep ", " (fields.map (fun p => jsonQuote p.1 ++ ": " ++ dumpsCompact fuel p.2)) ++
      "\x7d"

/-- Insert a field into a key-sorted field list (Python's `sort_keys=True`
sorts by code-point order, which is Lean's `String` order). -/
def insertByKey (p : String × Json) : List (String × Json) → List (String × Json)
  | [] => [p]
  | q :: rest => if p.1 < q.1 then p :: q :: rest else q :: insertByKey p rest

/-- Insertion sort of object fields by key. -/
def sortFields : List (String × Json) → List (String × Json)
  | [] => []
  | p :: rest => insertByKey p (sortFields rest)

/-- Recursively sort every object's fields by key, fuel-indexed. -/
def sortKeysJson : Nat → Json → Json
  | 0, j => j
  | fuel + 1, Json.arr xs => Json.arr (xs.map (sortKeysJson fuel))
  | fuel + 1, Json.obj fields =>
      Json.obj (sortFields (fields.map (fun p => (p.1, sortKeysJson fuel p.2))))
  | _ + 1, j => j

/-- Python `json.dumps(value, sort_keys=True)` as used on `event_data` when the
signature is computed (webhook_manager.py line 187). -/
def dumpsSorted (j : Json) : String :=
  dumpsCompact 100 (sortKeysJson 100 j)

/-- Spaces (2*n of them): the `indent=2` prefix at nesting level `n`. -/
def indentStr (n : Nat) : String :=
  String.mk (List.replicate (2 * n) (Char.ofNat 32))

/-- Python `json.dumps(..., indent=2)` (item separator `","` + newline,
key separator `": "`; empty containers stay inline), fuel-indexed with the
current nesting level. -/
def dumpsIndent : Nat → Nat → Json → String
  | 0, _, _ => ""
  | _ + 1, _, Json.null => "null"
  | _ + 1, _, Json.bool true => "true"
  | _ + 1, _, Json.bool false => "false"
  | _ + 1, _, Json.num n => toString n
  | _ + 1, _, Json.str s => jsonQuote s
  | _ + 1, _, Json.arr [] => "[]"
  | _ + 1, _, Json.obj [] => "\x7b\x7d"
  | fuel + 1, lvl, Json.arr xs =>
      "[\n" ++
        joinSep ",\n" (xs.map (fun x => indentStr (lvl + 1) ++ dumpsIndent fuel (lvl + 1) x)) ++
      "\n" ++ indentStr lvl ++ "]"
  | fuel + 1, lvl, Json.obj fields =>
      "\x7b\n" ++
        joinSep ",\n" (fields.map (fun p =>
          indentStr (lvl + 1) ++ jsonQuote p.1 ++ ": " ++ dumpsIndent fuel (lvl + 1) p.2)) ++
      "\n" ++ indentStr lvl ++ "\x7d"

/-- Python `json.dumps(payload, indent=2)` as used by `_build_payload` (line 212). -/
def dumpsIndent2 (j : Json) : String :=
  dumpsIndent 100 0 j

/-! ## SHA-256 and HMAC-SHA256

An executable embedding of `hashlib.sha256` / `hmac.new(..., hashlib.sha256)`
as called by `WebhookManager._generate_signature`.  Machine words are `Nat`
reduced modulo `2^32`; messages are lists of byte values.  Every recursion
is structural so the functions reduce inside the kernel. -/

/-- Truncate to a 32-bit word. -/
def w32 (x : Nat) : Nat := x % 4294967296

/-- Rotate right on 32-bit words. -/
def rotr32 (n x : Nat) : Nat := w32 ((x >>> n) ||| (x <<< (32 - n)))

/-- SHA-256 big sigma 0. -/
def bigSig0 (x : Nat) : Nat := rotr32 2 x ^^^ rotr32 13 x ^^^ rotr32 22 x

/-- SHA-256 big sigma 1. -/
def bigSig1 (x : Nat) : Nat := rotr32 6 x ^^^ rotr32 11 x ^^^ rotr32 25 x

/-- SHA-256 small sigma 0. -/
def smallSig0 (x : Nat) : Nat := rotr32 7 x ^^^ rotr32 18 x ^^^ (x >>> 3)

/-- SHA-256 small sigma 1. -/
def smallSig1 (x : Nat) : Nat := rotr32 17 x ^^^ rotr32 19 x ^^^ (x >>> 10)

/-- The 64 SHA-256 round constants. -/
def shaK : List Nat :=
  [1116352408, 1899447441, 3049323471, 3921009573, 961987163, 1508970993,
   2453635748, 2870763221, 3624381080, 310598401, 607225278, 1426881987,
   1925078388, 2162078206, 2614888103, 3248222580, 3835390401, 4022224774,
   264347078, 604807628, 770255983, 1249150122, 1555081692, 1996064986,
   2554220882, 2821834349, 2952996808, 3210313671, 3336571891, 3584528711,
   113926993, 338241895, 666307205, 773529912, 1294757372, 1396182291,
   1695183700, 1986661051, 2177026350, 2456956037, 2730485921, 2820302411,
   3259730800, 3345764771, 3516065817, 3600352804, 4094571909, 275423344,
   430227734, 506948616, 659060556, 883997877, 958139571, 1322822218,
   1537002063, 1747873779, 1955562222, 2024104815, 2227730452, 2361852424,
   2428436474, 2756734187, 3204031479, 3329325298]

/-- The SHA-256 initial hash value (decimal). -/
def shaH0 : List Nat :=
  [1779033703, 3144134277, 1013904242, 2773480762,
   1359893119, 2600822924, 528734635, 1541459225]

/-- The eight working variables of the compression loop. -/
structure Sha8 where
  a : Nat
  b : Nat
  c : Nat
  d : Nat
  e : Nat
  f : Nat
  g : Nat
  h : Nat

/-- One SHA-256 round. -/
def shaRound (s : Sha8) (k w : Nat) : Sha8 :=
  let ch := (s.e &&& s.f) ^^^ ((4294967295 ^^^ s.e) &&& s.g)
  let maj := (s.a &&& s.b) ^^^ (s.a &&& s.c) ^^^ (s.b &&& s.c)
  let t1 := w32 (s.h + bigSig1 s.e + ch + k + w)
  let t2 := w32 (bigSig0 s.a + maj)
  ⟨w32 (t1 + t2), s.a, s.b, s.c, w32 (s.d + t1), s.e, s.f, s.g⟩

/-- Run the 64 rounds over the zipped constants and schedule. -/
def shaRounds : List (Nat × Nat) → Sha8 → Sha8
  | [], s => s
  | kw :: rest, s => shaRounds rest (shaRound s kw.1 kw.2)

/-- Group bytes into big-endian 32-bit words. -/
def bytesToWords : List Nat → List Nat
  | b0 :: b1 :: b2 :: b3 :: rest =>
      (b0 * 16777216 + b1 * 65536 + b2 * 256 + b3) :: bytesToWords rest
  | _ => []

/-- Extend the 16 block words to the 64-entry message schedule
(`fuel` counts the 48 remaining entries). -/
def extendW : Nat → List Nat → List Nat
  | 0, ws => ws
  | n + 1, ws =>
      let t := ws.length
      extendW n (ws ++ [w32 (smallSig1 (ws.getD (t - 2) 0) + ws.getD (t - 7) 0 +
                             smallSig0 (ws.getD (t - 15) 0) + ws.getD (t - 16) 0)])

/-- Compress one 64-byte block into the running hash (8 words). -/
def shaCompress (h : List Nat) (block : List Nat) : List Nat :=
  let ws := extendW 48 (bytesToWords block)
  let s0 : Sha8 := ⟨h.getD 0 0, h.getD 1 0, h.getD 2 0, h.getD 3 0,
                    h.getD 4 0, h.getD 5 0, h.getD 6 0, h.getD 7 0⟩
  let s := shaRounds (shaK.zip ws) s0
  [w32 (s0.a + s.a), w32 (s0.b + s.b), w32 (s0.c + s.c), w32 (s0.d + s.d),
   w32 (s0.e + s.e), w32 (s0.f + s.f), w32 (s0.g + s.g), w32 (s0.h + s.h)]

/-- Big-endian 8-byte encoding of a (bit-)length. -/
def be64 (n : Nat) : List Nat :=
  [(n >>> 56) &&& 255, (n >>> 48) &&& 255, (n >>> 40) &&& 255, (n >>> 32) &&& 255,
   (n >>> 24) &&& 255, (n >>> 16) &&& 255, (n >>> 8) &&& 255, n &&& 255]

/-- Big-endian 4-byte encoding of a word. -/
def be32 (n : Nat) : List Nat :=
  [(n >>> 24) &&& 255, (n >>> 16) &&& 255, (n >>> 8) &&& 255, n &&& 255]

/-- SHA-256 padding: `0x80`, zeros, 64-bit big-endian bit length. -/
def shaPad (msg : List Nat) : List Nat :=
  let len := msg.length
  let zeros := (64 - (len + 9) % 64) % 64
  msg ++ [128] ++ List.replicate zeros 0 ++ be64 (8 * len)

/-- Compress `n` consecutive 64-byte blocks. -/
def shaLoop : Nat → List Nat → List Nat → List Nat
  | 0, h, _ => h
  | n + 1, h, bytes => shaLoop n (shaCompress h (bytes.take 64)) (bytes.drop 64)

/-- SHA-256 of a byte list, as a 32-byte list. -/
def sha256Bytes (msg : List Nat) : List Nat :=
  let padded := shaPad msg
  let h := shaLoop (padded.length / 64) shaH0 padded
  h.foldr (fun word acc => be32 word ++ acc) []

/-- HMAC-SHA256 of `msg` under `key` (block size 64), as a 32-byte list. -/
def hmacSha256 (key msg : List Nat) : List Nat :=
  let k0 := if key.length > 64 then sha256Bytes key else key
  let k := k0 ++ List.replicate (64 - k0.length) 0
  let ipad := k.map (fun b => b ^^^ 54)
  let opad := k.map (fun b => b ^^^ 92)
  sha256Bytes (opad ++ sha256Bytes (ipad ++ msg))

/-- Two lowercase hex digits of a byte. -/
def byteHex (b : Nat) : String :=
  String.mk [hexDigit (b / 16), hexDigit (b % 16)]

/-- Lowercase hex of a byte list, like Python's `.hexdigest()`. -/
def toHex (bytes : List Nat) : String :=
  String.join (bytes.map byteHex)

/-- UTF-8 encoding of an ASCII string (code points below 128 encode to
themselves; all strings in this development are ASCII). -/
def strBytes (s : String) : List Nat :=
  s.data.map Char.toNat

/-- Embeds `WebhookManager._generate_signature` (webhook_manager.py lines 214-221):
hex HMAC-SHA256 of the payload under the secret, prefixed `sha256=`. -/
def generateSignature (secret payload : String) : String :=
  "sha256=" ++ toHex (hmacSha256 (strBytes secret) (strBytes payload))

/-! ## Python dict operations for header maps

HTTP headers are built in a Python dict: insertion order is preserved,
`d[k] = v` replaces the value in place when the key exists and appends
otherwise, and `d.update(u)` assigns every pair of `u` in order. -/

/-- Header maps: ordered key-value lists. -/
abbrev Headers := List (String × String)

/-- First-match lookup, i.e. Python `d[k]` / `d.get(k)`. -/
def dictGet : Headers → String → Option String
  | [], _ => none
  | p :: rest, k => if p.1 = k then some p.2 else dictGet rest k

/-- Python `k in d`. -/
def dictHasKey : Headers → String → Bool
  | [], _ => false
  | p :: rest, k => p.1 = k || dictHasKey rest k

/-- Replace the first binding of `k` with `v`. -/
def replaceKey : Headers → String → String → Headers
  | [], _, _ => []
  | p :: rest, k, v => if p.1 = k then (k, v) :: rest else p :: replaceKey rest k v

/-- Python `d[k] = v`: replace in place when present, else append. -/
def dictAssign (d : Headers) (k v : String) : Headers :=
  if dictHasKey d k then replaceKey d k v else d ++ [(k, v)]

/-- Python `d.update(u)`: assign every pair of `u` in order. -/
def dictUpdate (d u : Headers) : Headers :=
  u.foldl (fun acc p => dictAssign acc p.1 p.2) d

/-! ## Data model (`app/db/models/webhook.py`)

`Webhook` carries the columns the delivery engine reads.  Field defaults are
the column defaults.  `events` holds `WebhookEvent` string values;
`organization_filter` holds organization ids; `case_filter` is the JSON
filter dict restricted to the three keys `_matches_filters` recognizes
(`status`, `severity`, `tags`), each a list of strings; a key is absent
exactly when the corresponding option is `none`. -/

/-- The recognized `case_filter` keys. -/
structure CaseFilter where
  status : Option (List String) := none
  severity : Option (List String) := none
  tags : Option (List String) := none
deriving DecidableEq

/-- Python truthiness of the `case_filter` dict: nonempty. -/
def CaseFilter.nonempty (f : CaseFilter) : Bool :=
  f.status.isSome || f.severity.isSome || f.tags.isSome

/-- A webhook subscription (`Webhook` model, webhook.py lines 11-60). -/
structure Webhook where
  id : Nat
  uuid : String
  name : String
  url : String
  enabled : Bool := true
  secret : Option String := none
  events : List String
  organization_filter : List Int := []
  case_filter : CaseFilter := {}
  timeout : Nat := 30
  max_retries : Nat := 3
  retry_backoff : Nat := 60
  custom_headers : Headers := []
deriving DecidableEq

/-- The `WebhookStatus` enum (enums.py lines 115-122). -/
inductive WebhookStatus where
  | pending
  | sending
  | success
  | failed
  | retrying
  | abandoned
deriving DecidableEq

/-- A delivery record: the dict built by `_create_delivery` plus the fields
`_update_delivery_failure` writes (the audit-only columns — triggered-by
and related-object ids — play no role in any claim and are omitted).  The
dict `_create_delivery` builds carries no `attempt_count` key at all, so
the field is an `Option Nat` whose `none` models the absent key; every
record the engine creates has it `none`, and only the failure handler could
ever write `some`.  Times are seconds as `Nat`. -/
structure Delivery where
  webhook_id : Nat
  event_type : String
  status : WebhookStatus
  request_url : String
  request_method : String
  request_headers : Headers
  request_body : String
  event_data : Json
  max_attempts : Nat
  attempt_count : Option Nat := none
  error_message : Option String := none
  response_time : Option Nat := none
  next_retry_at : Option Nat := none

/-! ## `WebhookManager` pure core

The builder and matcher functions of `webhook_manager.py`.  The two clock
reads the code performs — `str(time.time())` in `_build_headers` and
`datetime.now(timezone.utc).isoformat()` in `_build_payload` — are passed
in explicitly as `nowUnix` and `nowIso`. -/

/-- Models the lookup of the `event_type` key as used for the `X-CHawk-Event`
header (string-valued or absent field assumed). -/
def eventTypeHeader (eventData : Json) : String :=
  match eventData.get "event_type" with
  | some (Json.str s) => s
  | _ => ""

/-- The initial header dict literal of `_build_headers` (lines 175-180). -/
def baseHeaders (eventData : Json) (nowUnix : String) : Headers :=
  [("Content-Type", "application/json"),
   ("User-Agent", "CHawk-Webhook/1.0"),
   ("X-CHawk-Event", eventTypeHeader eventData),
   ("X-CHawk-Delivery", nowUnix)]

/-- Embeds `WebhookManager._build_headers` (lines 172-191): the four engine
headers, then `headers.update(custom_headers)`, then the signature header
when a secret is configured — signed over
`json.dumps(event_data, sort_keys=True)`. -/
def buildHeaders (w : Webhook) (eventData : Json) (nowUnix : String) : Headers :=
  let withCustom := dictUpdate (baseHeaders eventData nowUnix) w.custom_headers
  match w.secret with
  | some s => dictAssign withCustom "X-CHawk-Signature"
      (generateSignature s (dumpsSorted eventData))
  | none => withCustom

/-- The payload envelope built by `_build_payload` (lines 202-210). -/
def payloadEnvelope (w : Webhook) (eventType : String) (eventData : Json)
    (nowIso : String) : Json :=
  Json.obj
    [("event", Json.str eventType),
     ("timestamp", Json.str nowIso),
     ("webhook", Json.obj [("id", Json.str w.uuid), ("name", Json.str w.name)]),
     ("data", eventData)]

/-- Embeds `WebhookManager._build_payload` (lines 193-212). -/
def buildPayload (w : Webhook) (eventType : String) (eventData : Json)
    (nowIso : String) : String :=
  dumpsIndent2 (payloadEnvelope w eventType eventData nowIso)

/-- The full `build(subscription, event)` output: headers and body, given
the two clock readings sampled during the call. -/
def buildRequest (w : Webhook) (eventType : String) (eventData : Json)
    (t : String × String) : Headers × String :=
  (buildHeaders w eventData t.1, buildPayload w eventType eventData t.2)

/-- Membership of an optional string in a list, as Python's `x in l`
evaluates when `l` is a list of strings (`None` is in no such list). -/
def optStrMem (x : Option String) (l : List String) : Bool :=
  match x with
  | some s => l.contains s
  | none => false

/-- Membership of an optional integer in a list of integers. -/
def optIntMem (x : Option Int) (l : List Int) : Bool :=
  match x with
  | some n => l.contains n
  | none => false

/-- Models the organization id lookup of `_matches_filters` (line 116). -/
def orgIdOf (eventData : Json) : Option Int :=
  match eventData.get "organization" with
  | some org => org.getInt "id"
  | none => none

/-- Models the case-tags lookup (line 136), restricted to string tags. -/
def caseTags (caseData : Json) : List String :=
  match caseData.get "tags" with
  | some (Json.arr xs) => xs.filterMap (fun x => match x with
      | Json.str s => some s
      | _ => none)
  | _ => []

/-- Embeds `WebhookManager._matches_filters` (lines 111-141).  The sequential
early-`return False` structure is rendered as a conjunction of the three
case checks; `set(required).intersection(set(case_tags))` is nonempty
exactly when some required tag occurs among the case tags. -/
def matchesFilters (w : Webhook) (eventData : Json) : Bool :=
  let orgOk : Bool :=
    if w.organization_filter.isEmpty then true
    else optIntMem (orgIdOf eventData) w.organization_filter
  if !orgOk then false
  else if w.case_filter.nonempty && (eventData.get "case").isSome then
    let caseData := (eventData.get "case").getD Json.null
    let statusOk : Bool :=
      match w.case_filter.status with
      | some allowed => optStrMem (caseData.getStr "status") allowed
      | none => true
    let severityOk : Bool :=
      match w.case_filter.severity with
      | some allowed => optStrMem (caseData.getStr "severity") allowed
      | none => true
    let tagsOk : Bool :=
      match w.case_filter.tags with
      | some required => required.any (fun t => (caseTags caseData).contains t)
      | none => true
    statusOk && severityOk && tagsOk
  else true

/-- Why `trigger_event` skips a webhook: the three `continue` sites of its
loop (lines 80-91), in the order the code checks them. -/
inductive SkipReason where
  | notSubscribed
  | disabled
  | filtered
deriving DecidableEq

/-- The guard sequence of `trigger_event`'s loop body: event-kind
membership first (line 82), then the enabled flag (line 86), then
`_matches_filters` (line 90); `none` means a delivery is created. -/
def skipReason (w : Webhook) (eventType : String) (eventData : Json) :
    Option SkipReason :=
  if !(w.events.contains eventType) then some SkipReason.notSubscribed
  else if !w.enabled then some SkipReason.disabled
  else if !(matchesFilters w eventData) then some SkipReason.filtered
  else none

/-- Embeds `WebhookManager._create_delivery` (lines 143-170): the delivery record,
frozen request included. -/
def createDelivery (w : Webhook) (eventType : String) (eventData : Json)
    (nowIso nowUnix : String) : Delivery :=
  { webhook_id := w.id
    event_type := eventType
    status := WebhookStatus.pending
    request_url := w.url
    request_method := "POST"
    request_headers := buildHeaders w eventData nowUnix
    request_body := buildPayload w eventType eventData nowIso
    event_data := eventData
    max_attempts := w.max_retries + 1 }

/-- Embeds `WebhookManager.trigger_event` (lines 70-109): one delivery per
candidate webhook that passes every guard. -/
def triggerEvent (eventType : String) (eventData : Json)
    (webhooks : List Webhook) (nowIso nowUnix : String) : List Delivery :=
  webhooks.filterMap (fun w =>
    if skipReason w eventType eventData = none
    then some (createDelivery w eventType eventData nowIso nowUnix)
    else none)

/-! ## Delivery execution and retry dynamics

`_deliver_webhook` performs the HTTP request.  Any response — of any status
code — flows into `_update_delivery_success` (the code never inspects
`response.status` and `aiohttp` does not raise on HTTP error statuses);
only raised exceptions (transport errors, timeouts) reach
`_update_delivery_failure`.  That handler's first statement,
`delivery['attempt_count'] += 1` (line 307), raises `KeyError` on every
record `_create_delivery` builds, because the dict has no `attempt_count`
key; the exception escapes the `except` block of `_deliver_webhook` and is
swallowed by `_delivery_worker`'s catch-all, so the delivery is dropped
unmodified and the retry machinery below line 307 is dead code for
engine-created deliveries. -/

/-- Outcome of one HTTP request: a response with some status code, or a
raised exception (transport error / timeout). -/
inductive HttpOutcome where
  | response (statusCode : Nat)
  | exn (message : String)

/-- Where a delivery record sits between steps: on the delivery queue, on
the retry queue, or referenced by no queue at all. -/
inductive Loc where
  | deliveryQueue
  | retryQueue
  | done
deriving DecidableEq

/-- Embeds `WebhookManager._update_delivery_success` (lines 287-297): its body is
a single log statement — the record is not modified and no status is set. -/
def updateDeliverySuccess (d : Delivery) (_statusCode : Nat) : Delivery :=
  d

/-- The retry delay computed at line 314:
`min(60 * (2 ** (attempt_count - 1)), 3600)`, with `attempt_count` already
incremented. -/
def retryDelay (attemptCount : Nat) : Nat :=
  min (60 * 2 ^ (attemptCount - 1)) 3600

/-- Embeds `WebhookManager._update_delivery_failure` (lines 299-326).  Its
first statement, `delivery['attempt_count'] += 1` (line 307), reads the
`attempt_count` key: on the dict `_create_delivery` builds the key is
absent, so the read raises `KeyError` before anything is mutated and the
handler never reaches the retry/abandon logic; on a record that does carry
the key, the count is incremented and the retry/abandon branch is taken as
written (schedule `next_retry_at`, status `retrying`, retry queue — or
status `abandoned`).  The exceptional outcome is an `Except.error`. -/
def updateDeliveryFailure (d : Delivery) (message : String) (now rt : Nat) :
    Except String (Delivery × Loc) :=
  match d.attempt_count with
  | none => Except.error "KeyError: attempt_count"
  | some c0 =>
    if c0 + 1 < d.max_attempts then
      Except.ok ({ d with attempt_count := some (c0 + 1),
                          error_message := some message,
                          response_time := some rt,
                          next_retry_at := some (now + retryDelay (c0 + 1)),
                          status := WebhookStatus.retrying }, Loc.retryQueue)
    else
      Except.ok ({ d with attempt_count := some (c0 + 1),
                          error_message := some message,
                          response_time := some rt,
                          status := WebhookStatus.abandoned }, Loc.done)

/-- Embeds `WebhookManager._deliver_webhook` (lines 244-285) as observed
through `_delivery_worker` (lines 223-242): a response of any status takes
the success path; an exception takes the failure path, and when the failure
handler itself raises — the `KeyError` of line 307 — the exception escapes
`_deliver_webhook` and is caught and logged by `_delivery_worker`'s
catch-all (line 239), which drops the task: the record is left unmodified
and sits on no queue afterwards. -/
def deliverWebhook (d : Delivery) (o : HttpOutcome) (now rt : Nat) :
    Delivery × Loc :=
  match o with
  | HttpOutcome.response code => (updateDeliverySuccess d code, Loc.done)
  | HttpOutcome.exn m =>
      match updateDeliveryFailure d m now rt with
      | Except.ok result => result
      | Except.error _ => (d, Loc.done)

/-- State of one delivery between steps: the record, its queue location,
and a ghost count of HTTP attempts performed so far. -/
structure DS where
  d : Delivery
  loc : Loc
  attempts : Nat

/-- The transitions one delivery undergoes, from `_delivery_worker`
(lines 223-242) and `_retry_worker` (lines 328-361): a worker executes a
queued delivery; the retry worker re-enqueues a retry-queue entry as
`pending` when `next_retry_at` is set and due (line 344-348), and puts it
back unchanged otherwise (line 351-353).  The retry worker consults only
the delivery record — no subscription data is read at re-enqueue time. -/
inductive Step : DS → DS → Prop
  | attempt (s : DS) (o : HttpOutcome) (now rt : Nat)
      (hloc : s.loc = Loc.deliveryQueue) :
      Step s ⟨(deliverWebhook s.d o now rt).1, (deliverWebhook s.d o now rt).2,
              s.attempts + 1⟩
  | retryDue (s : DS) (t now : Nat) (hloc : s.loc = Loc.retryQueue)
      (hset : s.d.next_retry_at = some t) (hdue : t ≤ now) :
      Step s ⟨{ s.d with status := WebhookStatus.pending }, Loc.deliveryQueue,
              s.attempts⟩
  | retryNotDue (s : DS) (hloc : s.loc = Loc.retryQueue) : Step s s

/-- Reachability: reflexive-transitive closure of `Step`. -/
def Reach : DS → DS → Prop :=
  Relation.ReflTransGen Step

/-- The state of a freshly dispatched delivery: the record just created by
`_create_delivery`, sitting on the delivery queue, no attempts yet. -/
def initDS (w : Webhook) (eventType : String) (eventData : Json)
    (nowIso nowUnix : String) : DS :=
  ⟨createDelivery w eventType eventData nowIso nowUnix, Loc.deliveryQueue, 0⟩

/-- The value the last assignment of `u` would leave for key `k`
(used to describe `dictUpdate`). -/
def dictGetLast : Headers → String → Option String
  | [], _ => none
  | p :: rest, k =>
      match dictGetLast rest k with
      | some v => some v
      | none => if p.1 = k then some p.2 else none

/-! ## Concrete inputs used by individual claims -/

/-- C1: a subscription with a shared secret. -/
def c1W : Webhook :=
  { id := 1, uuid := "u-1", name := "wh", url := "https://example.test/hook",
    secret := some "key", events := ["case.created"] }

/-- C1: a one-field event payload. -/
def c1Ed : Json := Json.obj [("a", Json.num 1)]

/-- C1: the delivery record frozen at dispatch time at fixed clock readings. -/
def c1D : Delivery :=
  createDelivery c1W "case.created" c1Ed "2024-01-01T00:00:00+00:00" "1700000000.0"

/-- C2: a subscription with `max_retries = 2`, so `max_attempts = 3`. -/
def c2W : Webhook :=
  { id := 2, uuid := "u-2", name := "w2", url := "https://example.test/2",
    events := ["case.created"], max_retries := 2 }

/-- C2: its freshly created delivery. -/
def c2D : Delivery := createDelivery c2W "case.created" (Json.obj []) "T" "U"

/-- C3: a subscription with retries configured. -/
def c3W : Webhook :=
  { id := 3, uuid := "u-3", name := "w3", url := "https://example.test/3",
    events := ["case.created"], max_retries := 2 }

/-- C3: the initial state of its delivery. -/
def c3S0 : DS := initDS c3W "case.created" (Json.obj []) "T" "U"

/-- C4: a subscription as registered (enabled). -/
def c4We : Webhook :=
  { id := 4, uuid := "u-4", name := "w4", url := "https://example.test/4",
    events := ["case.created"], max_retries := 2 }

/-- C4: the same subscription after an administrator disables it. -/
def c4Wd : Webhook := { c4We with enabled := false }

/-- C4: the delivery record the engine creates for `c4We` (scenario D's
delivery, as frozen at dispatch time). -/
def c4D0 : Delivery := createDelivery c4We "case.created" (Json.obj []) "T" "U"

/-- C5: a subscription whose configured backoff base is 10 seconds. -/
def c5W : Webhook :=
  { id := 5, uuid := "u-5", name := "w5", url := "https://example.test/5",
    events := ["case.created"], max_retries := 2, retry_backoff := 10 }

/-- C5: its freshly created delivery. -/
def c5D : Delivery := createDelivery c5W "case.created" (Json.obj []) "T" "U"

/-- C6: a subscription whose filter declares an empty required-tags list. -/
def c6Wempty : Webhook :=
  { id := 6, uuid := "u-6", name := "w6", url := "https://example.test/6",
    events := ["case.created"], case_filter := { tags := some [] } }

/-- C6: a case event tagged `low`. -/
def c6Ed : Json :=
  Json.obj [("case", Json.obj [("tags", Json.arr [Json.str "low"])])]

/-- C6: scenario C's subscription requiring the `critical` tag. -/
def c6Wcrit : Webhook :=
  { id := 60, uuid := "u-60", name := "w60", url := "https://example.test/60",
    events := ["case.created"], case_filter := { tags := some ["critical"] } }

/-- C6: a case event tagged `critical` (used to witness the matcher
accepting). -/
def c6EdCrit : Json :=
  Json.obj [("case", Json.obj [("tags", Json.arr [Json.str "critical"])])]

/-- C7: a subscription whose custom headers collide with `Content-Type`. -/
def c7W : Webhook :=
  { id := 7, uuid := "u-7", name := "w7", url := "https://example.test/7",
    events := ["case.created"], secret := some "s7",
    custom_headers := [("Content-Type", "text/plain")] }

/-- C8: a plain subscription (no secret, no custom headers). -/
def c8W : Webhook :=
  { id := 8, uuid := "u-8", name := "w8", url := "https://example.test/8",
    events := ["e"] }

/-- C9: a disabled subscription not subscribed to any event kind. -/
def c9W : Webhook :=
  { id := 9, uuid := "u-9", name := "w9", url := "https://example.test/9",
    enabled := false, events := [] }

/-- C9: a disabled subscription that is subscribed to `e` (used to witness
the guard order). -/
def c9W2 : Webhook :=
  { id := 90, uuid := "u-90", name := "w90", url := "https://example.test/90",
    enabled := false, events := ["e"] }

/-- C10: an ordinary subscription (default `max_retries = 3`). -/
def c10W : Webhook :=
  { id := 10, uuid := "u-10", name := "w10", url := "https://example.test/10",
    events := ["e"] }

/-! ## Helper lemmas about the dict operations -/

theorem dictGet_replaceKey_self (d : Headers) (k v : String)
    (h : dictHasKey d k = true) : dictGet (replaceKey d k v) k = some v := by
  induction d with
  | nil => simp [dictHasKey] at h
  | cons p rest ih =>
    by_cases hp : p.1 = k
    · simp [replaceKey, hp, dictGet]
    · simp [dictHasKey, hp] at h
      simp [replaceKey, hp, dictGet, ih h]

theorem dictGet_replaceKey_ne (d : Headers) (k v k' : String) (h : k ≠ k') :
    dictGet (replaceKey d k v) k' = dictGet d k' := by
  induction d with
  | nil => simp [replaceKey]
  | cons p rest ih =>
    by_cases hp : p.1 = k
    · simp [replaceKey, hp, dictGet, h, ih]
    · simp [replaceKey, hp, dictGet, ih]

theorem dictGet_append_one_self (d : Headers) (k v : String)
    (h : dictHasKey d k = false) : dictGet (d ++ [(k, v)]) k = some v := by
  induction d with
  | nil => simp [dictGet]
  | cons p rest ih =>
    simp [dictHasKey] at h
    simp [dictGet, h.1, ih h.2]

theorem dictGet_append_one_ne (d : Headers) (k v k' : String) (h : k ≠ k') :
    dictGet (d ++ [(k, v)]) k' = dictGet d k' := by
  induction d with
  | nil => simp [dictGet, h]
  | cons p rest ih =>
    by_cases hp : p.1 = k'
    · simp [dictGet, hp]
    · simp [dictGet, hp, ih]

theorem dictGet_dictAssign_self (d : Headers) (k v : String) :
    dictGet (dictAssign d k v) k = some v := by
  unfold dictAssign
  by_cases h : dictHasKey d k = true
  · simp [h, dictGet_replaceKey_self d k v h]
  · simp only [Bool.not_eq_true] at h
    simp [h, dictGet_append_one_self d k v h]

theorem dictGet_dictAssign_ne (d : Headers) (k v k' : String) (h : k ≠ k') :
    dictGet (dictAssign d k v) k' = dictGet d k' := by
  unfold dictAssign
  by_cases hk : dictHasKey d k = true
  · simp [hk, dictGet_replaceKey_ne d k v k' h]
  · simp only [Bool.not_eq_true] at hk
    simp [hk, dictGet_append_one_ne d k v k' h]

theorem dictGet_dictUpdate (d u : Headers) (k : String) :
    dictGet (dictUpdate d u) k =
      match dictGetLast u k with
      | some v => some v
      | none => dictGet d k := by
  induction u generalizing d with
  | nil => simp [dictUpdate, dictGetLast]
  | cons p rest ih =>
    have hstep : dictUpdate d (p :: rest) = dictUpdate (dictAssign d p.1 p.2) rest := rfl
    rw [hstep, ih]
    cases hlast : dictGetLast rest k with
    | some v => simp [dictGetLast, hlast]
    | none =>
      by_cases hp : p.1 = k
      · subst hp
        simp [dictGetLast, hlast, dictGet_dictAssign_self]
      · simp [dictGetLast, hlast, hp, dictGet_dictAssign_ne d p.1 p.2 k hp]

theorem dictHasKey_eq_false_of_not_mem (u : Headers) (k : String)
    (h : k ∉ u.map Prod.fst) : dictHasKey u k = false := by
  induction u with
  | nil => rfl
  | cons p rest ih =>
    rw [List.map_cons, List.mem_cons, not_or] at h
    have hp : ¬ p.1 = k := fun he => h.1 he.symm
    simp [dictHasKey, hp, ih h.2]

theorem dictGetLast_of_not_mem (u : Headers) (k : String)
    (h : dictHasKey u k = false) : dictGetLast u k = none := by
  induction u with
  | nil => rfl
  | cons p rest ih =>
    rw [dictHasKey, Bool.or_eq_false_iff] at h
    have hp : ¬ p.1 = k := by
      have := h.1
      simpa using this
    simp [dictGetLast, ih h.2, hp]

theorem dictGetLast_of_mem (u : Headers) (k v : String)
    (hnd : (u.map Prod.fst).Nodup) (h : (k, v) ∈ u) :
    dictGetLast u k = some v := by
  induction u with
  | nil => simp at h
  | cons p rest ih =>
    rw [List.map_cons, List.nodup_cons] at hnd
    rcases List.mem_cons.mp h with hhead | htail
    · subst hhead
      have hnm : dictHasKey rest k = false :=
        dictHasKey_eq_false_of_not_mem rest k hnd.1
      simp [dictGetLast, dictGetLast_of_not_mem rest k hnm]
    · simp [dictGetLast, ih hnd.2 htail]

/-! ## Helper lemmas about the delivery state machine -/

theorem no_step_of_done {s s' : DS} (h : s.loc = Loc.done) : ¬ Step s s' := by
  intro hst
  cases hst with
  | attempt o now rt hloc => rw [h] at hloc; exact Loc.noConfusion hloc
  | retryDue t now hloc hset hdue => rw [h] at hloc; exact Loc.noConfusion hloc
  | retryNotDue hloc => rw [h] at hloc; exact Loc.noConfusion hloc

theorem createDelivery_fields (w : Webhook) (evT : String) (ed : Json)
    (tI tU : String) :
    (createDelivery w evT ed tI tU).attempt_count = none ∧
    (createDelivery w evT ed tI tU).status = WebhookStatus.pending ∧
    (createDelivery w evT ed tI tU).next_retry_at = none :=
  ⟨rfl, rfl, rfl⟩

theorem deliverWebhook_fresh (w : Webhook) (evT : String) (ed : Json)
    (tI tU : String) (o : HttpOutcome) (now rt : Nat) :
    deliverWebhook (createDelivery w evT ed tI tU) o now rt
      = (createDelivery w evT ed tI tU, Loc.done) := by
  cases o with
  | response code => rfl
  | exn m => rfl

theorem reach_engine (w : Webhook) (evT : String) (ed : Json) (tI tU : String)
    (s : DS) (h : Reach (initDS w evT ed tI tU) s) :
    s.d = createDelivery w evT ed tI tU ∧
    ((s.loc = Loc.deliveryQueue ∧ s.attempts = 0) ∨
     (s.loc = Loc.done ∧ s.attempts = 1)) := by
  induction h with
  | refl => exact ⟨rfl, Or.inl ⟨rfl, rfl⟩⟩
  | tail _ hstep ih =>
    obtain ⟨hd, hcase⟩ := ih
    cases hstep with
    | attempt o now rt hloc =>
      rcases hcase with ⟨hq, ha⟩ | ⟨hq, ha⟩
      · refine ⟨?_, Or.inr ⟨?_, ?_⟩⟩
        · show (deliverWebhook _ o now rt).1 = createDelivery w evT ed tI tU
          rw [hd, deliverWebhook_fresh]
        · show (deliverWebhook _ o now rt).2 = Loc.done
          rw [hd, deliverWebhook_fresh]
        · show _ + 1 = 1
          omega
      · rw [hq] at hloc
        exact Loc.noConfusion hloc
    | retryDue t now hloc hset hdue =>
      rcases hcase with ⟨hq, _⟩ | ⟨hq, _⟩ <;>
        (rw [hq] at hloc; exact Loc.noConfusion hloc)
    | retryNotDue hloc =>
      rcases hcase with ⟨hq, _⟩ | ⟨hq, _⟩ <;>
        (rw [hq] at hloc; exact Loc.noConfusion hloc)

/-! ## Helper lemmas about the header builder -/

theorem buildHeaders_secret_none {w : Webhook} (hs : w.secret = none)
    (ed : Json) (tU : String) :
    buildHeaders w ed tU = dictUpdate (baseHeaders ed tU) w.custom_headers := by
  unfold buildHeaders
  rw [hs]

theorem buildHeaders_secret_some {w : Webhook} {s : String} (hs : w.secret = some s)
    (ed : Json) (tU : String) :
    buildHeaders w ed tU =
      dictAssign (dictUpdate (baseHeaders ed tU) w.custom_headers)
        "X-CHawk-Signature" (generateSignature s (dumpsSorted ed)) := by
  unfold buildHeaders
  rw [hs]

theorem dictGet_baseHeaders_ne (ed : Json) (tU1 tU2 k : String)
    (hk : k ≠ "X-CHawk-Delivery") :
    dictGet (baseHeaders ed tU1) k = dictGet (baseHeaders ed tU2) k := by
  simp only [baseHeaders, dictGet]
  split_ifs with h1 h2 h3 h4
  · rfl
  · rfl
  · rfl
  · exact absurd h4.symm hk
  · rfl

/-! ## Claim theorems -/

/-- Claim C2: the claim says a response status >= 400 increments the
attempt count and leads, for a delivery with `max_attempts = 3` against an
endpoint always returning 500, to 3 attempts and final status `abandoned`.
The code disagrees: `_deliver_webhook` routes every response — any status
code, 500 included — to `_update_delivery_success`, which does not modify
the record at all, so the delivery leaves the queue after a single attempt
with the record unmodified and status still `pending`, never `abandoned`
(and never `success` either). -/
theorem claim_c2_theorem :
    (∀ (d : Delivery) (code now rt : Nat),
       deliverWebhook d (HttpOutcome.response code) now rt = (d, Loc.done)) ∧
    (deliverWebhook c2D (HttpOutcome.response 500) 0 5).1.status = WebhookStatus.pending ∧
    (deliverWebhook c2D (HttpOutcome.response 500) 0 5).1 = c2D ∧
    (deliverWebhook c2D (HttpOutcome.response 500) 0 5).1.status ≠ WebhookStatus.abandoned ∧
    c2D.max_attempts = 3 :=
  ⟨fun _ _ _ _ => rfl, rfl, rfl, by decide, rfl⟩

/-- Claim C3: in every reachable state of a dispatched delivery the record
is exactly the one `_create_delivery` froze — the success handler is a
no-op, and the failure handler's first statement (line 307) raises
`KeyError` on the missing `attempt_count` key before mutating anything,
after which the worker drops the record.  Consequently the claimed
invariant holds: whenever an attempt count is recorded it does not exceed
`max_attempts` (none ever is recorded), the next-retry timestamp is set
exactly when the status is `retrying` (both sides are always false: the
timestamp stays unset and the status stays `pending`), and a terminal
delivery — none is ever produced — would sit on no queue and admit no
further step. -/
theorem claim_c3_theorem (w : Webhook) (evT : String) (ed : Json) (tI tU : String)
    (s : DS) (h : Reach (initDS w evT ed tI tU) s) :
    s.d = createDelivery w evT ed tI tU ∧
    (∀ c, s.d.attempt_count = some c → c ≤ s.d.max_attempts) ∧
    (s.d.next_retry_at.isSome = true ↔ s.d.status = WebhookStatus.retrying) ∧
    ((s.d.status = WebhookStatus.success ∨ s.d.status = WebhookStatus.abandoned) →
      s.loc = Loc.done ∧ ∀ s', ¬ Step s s') := by
  obtain ⟨hd, hcase⟩ := reach_engine w evT ed tI tU s h
  obtain ⟨hac, hst, hnr⟩ := createDelivery_fields w evT ed tI tU
  refine ⟨hd, ?_, ?_, ?_⟩
  · intro c hc
    rw [hd, hac] at hc
    exact Option.noConfusion hc
  · rw [hd, hnr, hst]
    simp
  · intro ht
    rw [hd, hst] at ht
    rcases ht with hx | hx <;> exact WebhookStatus.noConfusion hx

/-- Claim C3 witness: the invariant instantiated at the initial state of a
concrete delivery. -/
theorem claim_c3_witness :
    c3S0.d = createDelivery c3W "case.created" (Json.obj []) "T" "U" ∧
    (∀ c, c3S0.d.attempt_count = some c → c ≤ c3S0.d.max_attempts) ∧
    (c3S0.d.next_retry_at.isSome = true ↔ c3S0.d.status = WebhookStatus.retrying) ∧
    ((c3S0.d.status = WebhookStatus.success ∨ c3S0.d.status = WebhookStatus.abandoned) →
      c3S0.loc = Loc.done ∧ ∀ s', ¬ Step c3S0 s') :=
  claim_c3_theorem c3W "case.created" (Json.obj []) "T" "U" c3S0
    Relation.ReflTransGen.refl

/-- Claim C4: scenario D — the subscription disabled right after its
delivery's first failed attempt — never reaches the mandated outcome.  The
first failure raises `KeyError` at line 307 (the dict has no
`attempt_count` key), `_delivery_worker` drops the record unchanged, and in
every reachable state the delivery stays `pending` with no next-retry
timestamp: it is never abandoned at all, let alone with reason
"subscription disabled" (a string appearing nowhere in the code), and
`_retry_worker`, which reads only the delivery record and no subscription
state, never sees it. -/
theorem claim_c4_theorem :
    c4Wd.enabled = false ∧
    c4D0.webhook_id = c4Wd.id ∧
    deliverWebhook c4D0 (HttpOutcome.exn "timeout") 0 0 = (c4D0, Loc.done) ∧
    (∀ s, Reach (initDS c4We "case.created" (Json.obj []) "T" "U") s →
       s.d.status = WebhookStatus.pending ∧
       s.d.status ≠ WebhookStatus.abandoned ∧
       s.d.next_retry_at = none) := by
  refine ⟨rfl, rfl, rfl, fun s h => ?_⟩
  have hd := (reach_engine c4We "case.created" (Json.obj []) "T" "U" s h).1
  rw [hd]
  exact ⟨rfl, by decide, rfl⟩

/-- Claim C4 witness: the reachable-state facts instantiated at the initial
state of scenario D's delivery. -/
theorem claim_c4_witness :
    (initDS c4We "case.created" (Json.obj []) "T" "U").d.status
      = WebhookStatus.pending ∧
    (initDS c4We "case.created" (Json.obj []) "T" "U").d.status
      ≠ WebhookStatus.abandoned ∧
    (initDS c4We "case.created" (Json.obj []) "T" "U").d.next_retry_at = none :=
  claim_c4_theorem.2.2.2 (initDS c4We "case.created" (Json.obj []) "T" "U")
    Relation.ReflTransGen.refl

/-- Claim C5: the claimed backoff formula never governs any schedule.  On
the record `_create_delivery` builds (no `attempt_count` key) the failure
handler raises `KeyError` at line 307 before reaching the delay computation
of line 314, so after a failed attempt nothing is scheduled: the delivery
is dropped with `next_retry_at` unset — for this subscription configured
with `retry_backoff = 10`, the claimed `min(10 * 2^(n-1), 3600)` delay (or
any other) is never produced; the delay expression at the dead line 314
would moreover hardcode base 60 and ignore `retry_backoff`. -/
theorem claim_c5_theorem :
    c5W.retry_backoff = 10 ∧
    c5D.attempt_count = none ∧
    updateDeliveryFailure c5D "err" 0 0 = Except.error "KeyError: attempt_count" ∧
    deliverWebhook c5D (HttpOutcome.exn "err") 0 0 = (c5D, Loc.done) ∧
    c5D.next_retry_at = none ∧
    (deliverWebhook c5D (HttpOutcome.exn "err") 0 0).1.next_retry_at = none :=
  ⟨rfl, rfl, rfl, rfl, rfl, rfl⟩

/-- Claim C10: `_create_delivery` sets the delivery's `max_attempts` to
`webhook.max_retries + 1`, and along every reachable execution of that
delivery the number of HTTP attempts performed never exceeds
`max_retries + 1` (the source performs at most one). -/
theorem claim_c10_theorem (w : Webhook) (evT : String) (ed : Json) (tI tU : String) :
    (createDelivery w evT ed tI tU).max_attempts = w.max_retries + 1 ∧
    ∀ s, Reach (initDS w evT ed tI tU) s → s.attempts ≤ w.max_retries + 1 := by
  refine ⟨rfl, fun s h => ?_⟩
  rcases (reach_engine w evT ed tI tU s h).2 with ⟨_, ha⟩ | ⟨_, ha⟩ <;> omega

/-- Claim C10 witness: the bound instantiated at a concrete subscription
and its initial delivery state. -/
theorem claim_c10_witness :
    (createDelivery c10W "e" (Json.obj []) "T" "U").max_attempts = c10W.max_retries + 1 ∧
    (initDS c10W "e" (Json.obj []) "T" "U").attempts ≤ c10W.max_retries + 1 :=
  ⟨(claim_c10_theorem c10W "e" (Json.obj []) "T" "U").1,
   (claim_c10_theorem c10W "e" (Json.obj []) "T" "U").2 _ Relation.ReflTransGen.refl⟩

/-- Claim C6 counterexample: the claim says an empty required-tags entry is
vacuously satisfied and excludes no event of a subscribed kind.  On the
code, a subscription whose `case_filter` is `{'tags': []}` rejects this
`case.created` event (an enabled subscription of a subscribed kind): the
empty required set has empty intersection with any tag set, so
`_matches_filters` returns `False` and zero deliveries are created. -/
theorem claim_c6_counterexample :
    c6Wempty.case_filter.tags = some [] ∧
    c6Wempty.enabled = true ∧
    c6Wempty.events.contains "case.created" = true ∧
    matchesFilters c6Wempty c6Ed = false ∧
    triggerEvent "case.created" c6Ed [c6Wempty] "T" "U" = [] :=
  ⟨rfl, rfl, by decide, by decide, rfl⟩

/-- Claim C6 (amended): whenever a subscription declares a required-tags
entry and the event carries the case dimension, the matcher accepts only
when some required tag occurs among the event's case tags — so the empty
required-tags entry excludes every case-carrying event, and disjoint tags
produce zero deliveries (scenario C: `required_tags=["critical"]`, event
tags `["low"]`). -/
theorem claim_c6_theorem :
    (∀ (w : Webhook) (ed : Json) (required : List String) (cd : Json),
       w.case_filter.tags = some required →
       ed.get "case" = some cd →
       matchesFilters w ed = true →
       required.any (fun t => (caseTags cd).contains t) = true) ∧
    matchesFilters c6Wcrit c6Ed = false ∧
    triggerEvent "case.created" c6Ed [c6Wcrit] "T" "U" = [] := by
  refine ⟨?_, by decide, rfl⟩
  intro w ed required cd htags hcase hmatch
  simp only [matchesFilters, CaseFilter.nonempty, hcase, htags, Option.isSome_some,
             Option.getD_some, Bool.or_true, Bool.and_true, Bool.true_and] at hmatch
  cases hb : (!(if w.organization_filter.isEmpty = true then true
                else optIntMem (orgIdOf ed) w.organization_filter)) with
  | true =>
    rw [hb] at hmatch
    simp at hmatch
  | false =>
    rw [hb] at hmatch
    simp only [Bool.false_eq_true, if_false, if_true, Bool.and_eq_true] at hmatch
    exact hmatch.2

/-- Claim C6 witness: the matcher accepting a case event whose tags meet
the required set, with the required intersection indeed nonempty. -/
theorem claim_c6_witness :
    (["critical"] : List String).any
      (fun t => (caseTags (Json.obj [("tags", Json.arr [Json.str "critical"])])).contains t)
      = true :=
  claim_c6_theorem.1 c6Wcrit c6EdCrit ["critical"]
    (Json.obj [("tags", Json.arr [Json.str "critical"])]) rfl rfl (by decide)

/-- Claim C9 counterexample: the claim says the enabled flag is evaluated
before the subscribed-event-kind check.  In `trigger_event` the kind
membership test (line 82) precedes the enabled test (line 86): for a
disabled subscription that is also not subscribed to the kind, the loop
skips at the kind check, not at the enabled check. -/
theorem claim_c9_counterexample :
    c9W.enabled = false ∧
    skipReason c9W "case.created" (Json.obj []) = some SkipReason.notSubscribed ∧
    some SkipReason.notSubscribed ≠ some SkipReason.disabled :=
  ⟨rfl, by decide, by decide⟩

/-- Claim C9 (amended): a disabled subscription never receives a delivery,
regardless of its filters; but the enabled flag is evaluated after the
event-kind membership check (and before the filters): an unsubscribed kind
skips with the kind reason even when the subscription is disabled, and a
subscribed kind on a disabled subscription skips with the disabled
reason. -/
theorem claim_c9_theorem :
    (∀ (w : Webhook) (evT : String) (ed : Json) (tI tU : String),
       w.enabled = false → triggerEvent evT ed [w] tI tU = []) ∧
    (∀ (w : Webhook) (evT : String) (ed : Json),
       w.events.contains evT = false →
       skipReason w evT ed = some SkipReason.notSubscribed) ∧
    (∀ (w : Webhook) (evT : String) (ed : Json),
       w.events.contains evT = true → w.enabled = false →
       skipReason w evT ed = some SkipReason.disabled) := by
  refine ⟨?_, ?_, ?_⟩
  · intro w evT ed tI tU hdis
    have hskip : skipReason w evT ed ≠ none := by
      unfold skipReason
      split
      · simp
      · split
        · simp
        · split
          · simp
          · rename_i h1 h2 h3
            exfalso
            rw [hdis] at h2
            exact h2 rfl
    unfold triggerEvent
    simp [List.filterMap_cons, hskip]
  · intro w evT ed hc
    unfold skipReason
    split
    · rfl
    · rename_i h1
      exfalso
      rw [hc] at h1
      exact h1 rfl
  · intro w evT ed hc hdis
    unfold skipReason
    split
    · rename_i h1
      exfalso
      rw [hc] at h1
      exact Bool.noConfusion h1
    · split
      · rfl
      · rename_i h1 h2
        exfalso
        rw [hdis] at h2
        exact h2 rfl

/-- Claim C9 witness: the three parts instantiated on a concrete disabled
subscription subscribed to kind `e`. -/
theorem claim_c9_witness :
    triggerEvent "e" (Json.obj []) [c9W2] "T" "U" = [] ∧
    skipReason c9W2 "x" (Json.obj []) = some SkipReason.notSubscribed ∧
    skipReason c9W2 "e" (Json.obj []) = some SkipReason.disabled :=
  ⟨claim_c9_theorem.1 c9W2 "e" (Json.obj []) "T" "U" rfl,
   claim_c9_theorem.2.1 c9W2 "x" (Json.obj []) (by decide),
   claim_c9_theorem.2.2 c9W2 "e" (Json.obj []) (by decide) rfl⟩

/-- Claim C7 counterexample: the claim says a custom header colliding with
a reserved header never replaces the engine-generated value.  The code runs
`headers.update(custom_headers)` after building the reserved headers, so a
custom `Content-Type: text/plain` replaces the engine's
`application/json`. -/
theorem claim_c7_counterexample :
    c7W.custom_headers = [("Content-Type", "text/plain")] ∧
    dictGet (buildHeaders c7W (Json.obj []) "123.0") "Content-Type"
      = some "text/plain" ∧
    some "text/plain" ≠ some ("application/json" : String) :=
  ⟨rfl, by decide, by decide⟩

/-- Claim C7 (amended): the built headers contain the reserved headers with
engine values only where no custom header collides; a custom header whose
name collides with `Content-Type`, `User-Agent`, `X-CHawk-Event` or
`X-CHawk-Delivery` replaces the engine value, because the update runs after
they are set.  Only the signature header is applied after the custom
headers: whenever a secret is configured, `X-CHawk-Signature` carries the
engine-generated signature. -/
theorem claim_c7_theorem :
    (∀ (w : Webhook) (ed : Json) (tU s : String), w.secret = some s →
       dictGet (buildHeaders w ed tU) "X-CHawk-Signature"
         = some (generateSignature s (dumpsSorted ed))) ∧
    (∀ (w : Webhook) (ed : Json) (tU k v : String),
       (w.custom_headers.map Prod.fst).Nodup → (k, v) ∈ w.custom_headers →
       k ≠ "X-CHawk-Signature" →
       dictGet (buildHeaders w ed tU) k = some v) ∧
    (∀ (w : Webhook) (ed : Json) (tU k : String),
       k = "Content-Type" ∨ k = "User-Agent" ∨ k = "X-CHawk-Event" ∨
         k = "X-CHawk-Delivery" →
       dictHasKey w.custom_headers k = false →
       dictGet (buildHeaders w ed tU) k = dictGet (baseHeaders ed tU) k) := by
  refine ⟨?_, ?_, ?_⟩
  · intro w ed tU s hs
    rw [buildHeaders_secret_some hs]
    exact dictGet_dictAssign_self _ _ _
  · intro w ed tU k v hnd hmem hne
    cases hs : w.secret with
    | none =>
      rw [buildHeaders_secret_none hs]
      rw [dictGet_dictUpdate, dictGetLast_of_mem w.custom_headers k v hnd hmem]
    | some s =>
      rw [buildHeaders_secret_some hs]
      rw [dictGet_dictAssign_ne _ _ _ _ (Ne.symm hne)]
      rw [dictGet_dictUpdate, dictGetLast_of_mem w.custom_headers k v hnd hmem]
  · intro w ed tU k hk hnk
    have hlast := dictGetLast_of_not_mem w.custom_headers k hnk
    have hsig : ("X-CHawk-Signature" : String) ≠ k := by
      rcases hk with h | h | h | h <;> (subst h; decide)
    cases hs : w.secret with
    | none =>
      rw [buildHeaders_secret_none hs, dictGet_dictUpdate, hlast]
    | some s =>
      rw [buildHeaders_secret_some hs, dictGet_dictAssign_ne _ _ _ _ hsig,
          dictGet_dictUpdate, hlast]

/-- Claim C7 witness: the signature header, a custom override, and an
un-collided reserved header, each at a concrete subscription. -/
theorem claim_c7_witness :
    dictGet (buildHeaders c7W (Json.obj []) "9.0") "X-CHawk-Signature"
      = some (generateSignature "s7" (dumpsSorted (Json.obj []))) ∧
    dictGet (buildHeaders c7W (Json.obj []) "9.0") "Content-Type"
      = some "text/plain" ∧
    dictGet (buildHeaders c8W (Json.obj []) "9.0") "User-Agent"
      = dictGet (baseHeaders (Json.obj []) "9.0") "User-Agent" :=
  ⟨claim_c7_theorem.1 c7W (Json.obj []) "9.0" "s7" rfl,
   claim_c7_theorem.2.1 c7W (Json.obj []) "9.0" "Content-Type" "text/plain"
     (by decide) (by decide) (by decide),
   claim_c7_theorem.2.2 c8W (Json.obj []) "9.0" "User-Agent"
     (Or.inr (Or.inl rfl)) rfl⟩

/-- Claim C8 counterexample: calling the builder twice with the same
subscription and event but at different clock readings yields different
output — `str(time.time())` is sampled into the `X-CHawk-Delivery` header
and `datetime.now()` into the body's `timestamp` field, so the output is
not byte-identical across two real calls. -/
theorem claim_c8_counterexample :
    buildRequest c8W "e" (Json.obj []) ("0", "T0")
      ≠ buildRequest c8W "e" (Json.obj []) ("1", "T1") := by
  decide

/-- Claim C8 (amended): the builder is deterministic given the subscription,
the event, and the clock readings sampled during the call — equal readings
give byte-identical output; across different readings every header except
`X-CHawk-Delivery` is identical, and the payload envelopes agree once the
`timestamp` field is removed. -/
theorem claim_c8_theorem :
    (∀ (w : Webhook) (evT : String) (ed : Json) (t1 t2 : String × String),
       t1 = t2 → buildRequest w evT ed t1 = buildRequest w evT ed t2) ∧
    (∀ (w : Webhook) (ed : Json) (tU1 tU2 k : String), k ≠ "X-CHawk-Delivery" →
       dictGet (buildHeaders w ed tU1) k = dictGet (buildHeaders w ed tU2) k) ∧
    (∀ (w : Webhook) (evT : String) (ed : Json) (tI1 tI2 : String),
       Json.stripKey (payloadEnvelope w evT ed tI1) "timestamp"
         = Json.stripKey (payloadEnvelope w evT ed tI2) "timestamp") := by
  refine ⟨fun w evT ed t1 t2 h => by rw [h], ?_, fun w evT ed tI1 tI2 => rfl⟩
  intro w ed tU1 tU2 k hk
  have hupd : dictGet (dictUpdate (baseHeaders ed tU1) w.custom_headers) k
      = dictGet (dictUpdate (baseHeaders ed tU2) w.custom_headers) k := by
    rw [dictGet_dictUpdate, dictGet_dictUpdate]
    cases hlast : dictGetLast w.custom_headers k with
    | some v => rfl
    | none => exact dictGet_baseHeaders_ne ed tU1 tU2 k hk
  cases hs : w.secret with
  | none =>
    rw [buildHeaders_secret_none hs, buildHeaders_secret_none hs]
    exact hupd
  | some s =>
    rw [buildHeaders_secret_some hs, buildHeaders_secret_some hs]
    by_cases hksig : ("X-CHawk-Signature" : String) = k
    · rw [← hksig, dictGet_dictAssign_self, dictGet_dictAssign_self]
    · rw [dictGet_dictAssign_ne _ _ _ _ hksig, dictGet_dictAssign_ne _ _ _ _ hksig]
      exact hupd

/-- Claim C8 witness: determinism at equal clock readings and
header-agreement away from the delivery header, at concrete inputs. -/
theorem claim_c8_witness :
    buildRequest c8W "e" (Json.obj []) ("0", "T0")
      = buildRequest c8W "e" (Json.obj []) ("0", "T0") ∧
    dictGet (buildHeaders c8W (Json.obj []) "0") "Content-Type"
      = dictGet (buildHeaders c8W (Json.obj []) "1") "Content-Type" ∧
    Json.stripKey (payloadEnvelope c8W "e" (Json.obj []) "T0") "timestamp"
      = Json.stripKey (payloadEnvelope c8W "e" (Json.obj []) "T1") "timestamp" :=
  ⟨claim_c8_theorem.1 c8W "e" (Json.obj []) ("0", "T0") ("0", "T0") rfl,
   claim_c8_theorem.2.1 c8W (Json.obj []) "0" "1" "Content-Type" (by decide),
   claim_c8_theorem.2.2 c8W "e" (Json.obj []) "T0" "T1"⟩

/-- Claim C1: the claim says the signature header is the HMAC-SHA256 over
the exact bytes of the transmitted request body, so recomputing it over the
built body yields the same value.  The code signs a different string:
`_build_headers` computes the HMAC over `json.dumps(event_data,
sort_keys=True)` while `_build_payload` transmits
`json.dumps(envelope, indent=2)` — a different serialization of a different
object — so recomputing the HMAC over the transmitted body (as a receiver
must) yields a different value and verification fails. -/
theorem claim_c1_theorem :
    c1W.secret = some "key" ∧
    c1D.request_body
      = buildPayload c1W "case.created" c1Ed "2024-01-01T00:00:00+00:00" ∧
    dictGet c1D.request_headers "X-CHawk-Signature"
      = some (generateSignature "key" (dumpsSorted c1Ed)) ∧
    generateSignature "key" c1D.request_body
      ≠ generateSignature "key" (dumpsSorted c1Ed) := by
  refine ⟨rfl, rfl, rfl, ?_⟩
  decide

end CHawk
